import Mathlib

/-!
Verification of the NumCosmo model core (src/numcosmo/math/ncm_model.c and
src/numcosmo/math/ncm_matrix.c) against its natural-language specification.

The C code is shallowly embedded: parameter values (C gdouble) are modelled
as rationals, GLib pointer arrays as lists of options, GHashTable name
tables as association lists, guint arithmetic as natural numbers reduced
modulo 2^32 where the C code can wrap, and the two fatal-error mechanisms
(g_error and failed g_assert) as the error case of Option or Except.
-/

/-- Fit type of a parameter slot (NcmParamType in ncm_model.h):
free parameters are varied during fitting, fixed ones are held constant. -/
inductive NcmParamType where
  | free : NcmParamType
  | fixed : NcmParamType
deriving DecidableEq, Repr

/-- Scalar parameter descriptor (NcmSParam): name, symbol, bounds, scale,
absolute tolerance, default value and default fit type. -/
structure NcmSParam where
  name : String
  symbol : String
  lower_bound : ℚ
  upper_bound : ℚ
  scale : ℚ
  abstol : ℚ
  default_value : ℚ
  ftype : NcmParamType
deriving DecidableEq, Repr

/-- Placeholder descriptor used where the C code would dereference a slot;
claims only evaluate descriptors at indices the instance actually owns. -/
def ncm_sparam_zero : NcmSParam :=
  { name := "", symbol := "", lower_bound := 0, upper_bound := 0,
    scale := 0, abstol := 0, default_value := 0, ftype := NcmParamType.fixed }

/-- Vector parameter descriptor (NcmVParam): a scalar template plus a
default length. -/
structure NcmVParam where
  default_sparam : NcmSParam
  len : ℕ
deriving DecidableEq, Repr

/-- Reparametrization (NcmReparam, ncm_reparam.h/.c is not under src/).
Modelled from the spec: a bidirectional transform with a domain/codomain
length, a forward map old2new filling its owned codomain vector new_params,
a table of renamed-slot names, and per-slot changed descriptors (the slots
it renames carry a non-null descriptor). rtype stands for the GObject
runtime type of the concrete reparametrization. -/
structure NcmReparam where
  rtype : ℕ
  length : ℕ
  old2new : List ℚ → List ℚ
  new_params : List ℚ
  sparams_name_id : List (String × ℕ)
  sparams : List (Option NcmSParam)

/-- Model instance state (struct _NcmModel in ncm_model.h). params is the
original parameter vector; palias records whether the working vector p
aliases params (true) or is the active reparametrization codomain vector
(false). gtype stands for the GObject runtime type of the instance. -/
structure NcmModel where
  gtype : ℕ
  total_len : ℕ
  params : List ℚ
  palias : Bool
  reparam : Option NcmReparam
  ptypes : List NcmParamType
  sparams : List NcmSParam
  sparams_name_id : List (String × ℕ)
  vparam_len : List ℕ
  vparam_pos : List ℕ

/-- Model class state (struct _NcmModelClass): the per-type schema with the
slot-count bookkeeping used by the property-id layout. has_get_property and
has_set_property record whether the level installed its own nonparametric
property handlers (model_class->get_property / set_property non-NULL). -/
structure NcmModelClass where
  nonparam_prop_len : ℕ
  sparam_len : ℕ
  vparam_len : ℕ
  parent_sparam_len : ℕ
  parent_vparam_len : ℕ
  sparam : List (Option NcmSParam)
  vparam : List (Option NcmVParam)
  has_get_property : Bool
  has_set_property : Bool
deriving DecidableEq, Repr

/-- The working vector seen through model->p: params when p aliases the
original vector, else the active reparametrization codomain vector. -/
def ncm_model_working_vector (m : NcmModel) : List ℚ :=
  if m.palias then m.params
  else
    match m.reparam with
    | some r => r.new_params
    | none => m.params

/-- Modelled from the spec: ncm_model_param_get is an inline accessor in the
missing header ncm_model.h; per §4.2 it reads the n-th entry of the working
vector. -/
def ncm_model_param_get (m : NcmModel) (n : ℕ) : ℚ :=
  (ncm_model_working_vector m).getD n 0

/-- Modelled from the spec: ncm_model_orig_param_get (missing header
ncm_model.h) reads the n-th entry of the original vector. -/
def ncm_model_orig_param_get (m : NcmModel) (n : ℕ) : ℚ :=
  m.params.getD n 0

/-- Modelled from the spec: ncm_model_param_peek_desc (missing header
ncm_model.h) yields the n-th slot descriptor of the current
parametrization: the descriptor the active reparametrization installed for
slot n when present, else the instance's n-th original descriptor. -/
def ncm_model_param_peek_desc (m : NcmModel) (n : ℕ) : NcmSParam :=
  match m.reparam with
  | some r => (r.sparams.getD n none).getD (m.sparams.getD n ncm_sparam_zero)
  | none => m.sparams.getD n ncm_sparam_zero

/-- ncm_model_param_get_lower_bound (ncm_model.c:1702). -/
def ncm_model_param_get_lower_bound (m : NcmModel) (n : ℕ) : ℚ :=
  (ncm_model_param_peek_desc m n).lower_bound

/-- ncm_model_param_get_upper_bound (ncm_model.c:1717). -/
def ncm_model_param_get_upper_bound (m : NcmModel) (n : ℕ) : ℚ :=
  (ncm_model_param_peek_desc m n).upper_bound

/-- ncm_model_params_valid_bounds (ncm_model.c:1363-1376). Note line 1370:
the variable ub is loaded with ncm_model_param_get_lower_bound, so the true
upper bound is never consulted. -/
def ncm_model_params_valid_bounds (m : NcmModel) : Bool :=
  (List.range m.total_len).all fun i =>
    let lb := ncm_model_param_get_lower_bound m i
    let ub := ncm_model_param_get_lower_bound m i
    let val := ncm_model_param_get m i
    !(decide (val < lb) || decide (val > ub))

/-- Claim-side bounds check, following the words of the spec (§4.2 and §8):
every slot value tested against its true lower and true upper bound. -/
def ncm_model_params_valid_bounds_claim (m : NcmModel) : Bool :=
  (List.range m.total_len).all fun i =>
    let lb := ncm_model_param_get_lower_bound m i
    let ub := ncm_model_param_get_upper_bound m i
    let val := ncm_model_orig_param_get m i
    !(decide (val < lb) || decide (val > ub))

/-- Single-slot model with bounds [0, 1] holding the value v: the bounds
scenario of spec §8. -/
def ncm_model_bounds_scenario (v : ℚ) : NcmModel :=
  { gtype := 0
    total_len := 1
    params := [v]
    palias := true
    reparam := none
    ptypes := [NcmParamType.fixed]
    sparams := [{ name := "p", symbol := "p", lower_bound := 0, upper_bound := 1,
                  scale := 1, abstol := 0, default_value := 0, ftype := NcmParamType.fixed }]
    sparams_name_id := [("p", 0)]
    vparam_len := []
    vparam_pos := [] }

/-- Claim C1: ncm_model_params_valid_bounds should return true iff every
slot value lies within its true [lower, upper] interval; for a slot with
lower 0 and upper 1 the value 1/2 should validate. The code instead reads
the upper bound with ncm_model_param_get_lower_bound (line 1370), so the
in-bounds value 1/2 is rejected, diverging from the claim; the values -1
and 2 are rejected by both the code and the claim-side check. -/
theorem ncm_model_params_valid_bounds_upper_bound_bug :
    ncm_model_params_valid_bounds (ncm_model_bounds_scenario (mkRat 1 2)) = false ∧
    ncm_model_params_valid_bounds_claim (ncm_model_bounds_scenario (mkRat 1 2)) = true ∧
    ncm_model_params_valid_bounds (ncm_model_bounds_scenario (-1)) = false ∧
    ncm_model_params_valid_bounds_claim (ncm_model_bounds_scenario (-1)) = false ∧
    ncm_model_params_valid_bounds (ncm_model_bounds_scenario 2) = false ∧
    ncm_model_params_valid_bounds_claim (ncm_model_bounds_scenario 2) = false := by
  refine ⟨?_, ?_, ?_, ?_, ?_, ?_⟩ <;> decide

/-- Modelled from the spec: ncm_reparam_old2new (ncm_reparam.c is not under
src/). Per §4.3 and §7, applying the forward map of a reparametrization
whose domain length differs from the length of the source vector is a fatal
precondition violation (modelled as none); otherwise the destination
receives the forward image of the source. -/
def ncm_reparam_old2new (r : NcmReparam) (src : List ℚ) : Option (List ℚ) :=
  if r.length = src.length then some (r.old2new src) else none

/-- Embedding of _ncm_model_sparams_remove_reparam (ncm_model.c:438-446): when a
reparametrization is active, drop it and let the working vector alias the
original vector again; otherwise do nothing. -/
def _ncm_model_sparams_remove_reparam (m : NcmModel) : NcmModel :=
  if m.reparam.isSome then { m with reparam := none, palias := true } else m

/-- ncm_model_set_reparam (ncm_model.c:1068-1083): attaching a
reparametrization replaces any active one, points the working vector at the
codomain vector of the transform and immediately applies the forward map
(spec-modelled ncm_reparam_old2new, which aborts on domain-length
mismatch); passing none detaches. -/
def ncm_model_set_reparam (m : NcmModel) (reparam : Option NcmReparam) : Option NcmModel :=
  match reparam with
  | some r =>
      match ncm_reparam_old2new r m.params with
      | some nv => some { m with reparam := some { r with new_params := nv }, palias := false }
      | none => none
  | none => some (_ncm_model_sparams_remove_reparam m)

/-- Claim C4: for any model state and any reparametrization whose domain
length matches the original vector, attaching it and then detaching leaves
the original vector unchanged elementwise and reverts the working vector to
an alias of the original vector. -/
theorem ncm_model_set_reparam_roundtrip (m : NcmModel) (r : NcmReparam)
    (h : r.length = m.params.length) :
    ∃ m2, (ncm_model_set_reparam m (some r)).bind
            (fun m1 => ncm_model_set_reparam m1 none) = some m2 ∧
          m2.params = m.params ∧ m2.palias = true ∧ m2.reparam = none := by
  refine ⟨{ m with reparam := none, palias := true }, ?_, rfl, rfl, rfl⟩
  simp [ncm_model_set_reparam, ncm_reparam_old2new, h, _ncm_model_sparams_remove_reparam]

/-- Two-slot model used to witness the reparametrization claims. -/
def ncm_model_reparam_demo : NcmModel :=
  { gtype := 0
    total_len := 2
    params := [3, 4]
    palias := true
    reparam := none
    ptypes := [NcmParamType.fixed, NcmParamType.fixed]
    sparams := [ncm_sparam_zero, ncm_sparam_zero]
    sparams_name_id := [("a", 0), ("b", 1)]
    vparam_len := []
    vparam_pos := [] }

/-- Reparametrization of matching domain length 2 that doubles each entry. -/
def ncm_reparam_demo : NcmReparam :=
  { rtype := 7
    length := 2
    old2new := fun v => v.map (fun x => x * 2)
    new_params := [0, 0]
    sparams_name_id := []
    sparams := [] }

/-- Witness for claim C4 at a concrete model and reparametrization. -/
theorem ncm_model_set_reparam_roundtrip_witness :
    ∃ m2, (ncm_model_set_reparam ncm_model_reparam_demo (some ncm_reparam_demo)).bind
            (fun m1 => ncm_model_set_reparam m1 none) = some m2 ∧
          m2.params = ncm_model_reparam_demo.params ∧ m2.palias = true ∧ m2.reparam = none :=
  ncm_model_set_reparam_roundtrip ncm_model_reparam_demo ncm_reparam_demo rfl

/-- Claim C8: attaching a reparametrization whose domain length differs
from the length of the original vector aborts (the forward application is a
fatal precondition violation) instead of attaching and continuing. -/
theorem ncm_model_set_reparam_mismatch_fatal (m : NcmModel) (r : NcmReparam)
    (h : r.length ≠ m.params.length) :
    ncm_model_set_reparam m (some r) = none := by
  simp [ncm_model_set_reparam, ncm_reparam_old2new, h]

/-- Reparametrization with domain length 3, mismatching the demo model. -/
def ncm_reparam_demo_len3 : NcmReparam :=
  { rtype := 9
    length := 3
    old2new := fun v => v
    new_params := [0, 0, 0]
    sparams_name_id := []
    sparams := [] }

/-- Witness for claim C8 at a concrete mismatched pair. -/
theorem ncm_model_set_reparam_mismatch_fatal_witness :
    ncm_model_set_reparam ncm_model_reparam_demo (some ncm_reparam_demo_len3) = none :=
  ncm_model_set_reparam_mismatch_fatal ncm_model_reparam_demo ncm_reparam_demo_len3 (by decide)

/-- ncm_model_is_equal (ncm_model.c:1094-1109): same GObject type, same
parameter-vector length; when model1 carries a reparametrization, model2
must carry one of the same GObject type. Note that when model1 has no
reparametrization, model2's reparametrization is never inspected. -/
def ncm_model_is_equal (model1 model2 : NcmModel) : Bool :=
  if model1.gtype ≠ model2.gtype then false
  else if model1.params.length ≠ model2.params.length then false
  else
    match model1.reparam with
    | some r1 =>
        match model2.reparam with
        | none => false
        | some r2 => if r1.rtype ≠ r2.rtype then false else true
    | none => true

/-- Claim-side equality condition, following the words of the claim: same
concrete type, same length, and either both models have no active
reparametrization or both active reparametrizations have the same kind. -/
def ncm_model_is_equal_claim (model1 model2 : NcmModel) : Prop :=
  model1.gtype = model2.gtype ∧ model1.params.length = model2.params.length ∧
  ((model1.reparam = none ∧ model2.reparam = none) ∨
   (∃ r1 r2, model1.reparam = some r1 ∧ model2.reparam = some r2 ∧ r1.rtype = r2.rtype))

/-- Demo model carrying an active reparametrization, for the C5
counterexample. -/
def ncm_model_reparam_demo_attached : NcmModel :=
  { ncm_model_reparam_demo with
      palias := false
      reparam := some { ncm_reparam_demo with new_params := [6, 8] } }

/-- Counterexample to claim C5 as stated: the model without a
reparametrization compared against the same-type, same-length model with an
active reparametrization is reported equal by the code, although the
claimed condition (both without, or both with the same kind) is violated. -/
theorem ncm_model_is_equal_asymmetry :
    ncm_model_is_equal ncm_model_reparam_demo ncm_model_reparam_demo_attached = true ∧
    ¬ ncm_model_is_equal_claim ncm_model_reparam_demo ncm_model_reparam_demo_attached := by
  constructor
  · rfl
  · rintro ⟨-, -, ⟨-, h⟩ | ⟨r1, r2, h1, -, -⟩⟩
    · exact absurd h (by simp [ncm_model_reparam_demo_attached, ncm_model_reparam_demo])
    · exact absurd h1 (by simp [ncm_model_reparam_demo])

/-- Claim C5 amended: ncm_model_is_equal returns true iff the two models
have the same concrete type, the same parameter-vector length, and whenever
model1 carries an active reparametrization, model2 carries one of the same
kind; the reparametrization of model2 is not inspected when model1 has
none. In particular the result is false whenever the lengths differ, and
true for same type and length with neither model reparametrized. -/
theorem ncm_model_is_equal_characterization (model1 model2 : NcmModel) :
    ncm_model_is_equal model1 model2 = true ↔
      (model1.gtype = model2.gtype ∧ model1.params.length = model2.params.length ∧
       ∀ r1, model1.reparam = some r1 →
         ∃ r2, model2.reparam = some r2 ∧ r1.rtype = r2.rtype) := by
  unfold ncm_model_is_equal
  rcases h1 : model1.reparam with - | r1 <;> rcases h2 : model2.reparam with - | r2 <;>
    split_ifs <;> simp_all

/-- Witness applying the C5 characterization at concrete models: two
unreparametrized copies of the demo model are equal. -/
theorem ncm_model_is_equal_characterization_witness :
    ncm_model_is_equal ncm_model_reparam_demo ncm_model_reparam_demo = true :=
  (ncm_model_is_equal_characterization ncm_model_reparam_demo ncm_model_reparam_demo).mpr
    ⟨rfl, rfl, fun r1 h => by simp [ncm_model_reparam_demo] at h⟩

/-- Modelled from the spec: ncm_reparam_index_from_name (ncm_reparam.c is
not under src/) looks the name up in the reparametrization's own
renamed-slot table, returning a found flag and the index (the out parameter
is left at the guint value of -1 on a miss, as the original-table lookup
does). -/
def ncm_reparam_index_from_name (r : NcmReparam) (param_name : String) : Bool × ℕ :=
  match List.lookup param_name r.sparams_name_id with
  | some i => (true, i)
  | none => (false, 4294967295)

/-- Modelled from the spec: ncm_reparam_peek_param_desc (ncm_reparam.c is
not under src/) returns the descriptor the reparametrization installed for
slot n, or null when slot n is untouched. -/
def ncm_reparam_peek_param_desc (r : NcmReparam) (n : ℕ) : Option NcmSParam :=
  r.sparams.getD n none

/-- ncm_model_orig_param_index_from_name (ncm_model.c:1900-1910): look the
name up in the schema name table; on a miss report not-found and leave the
out parameter at -1 cast to guint. -/
def ncm_model_orig_param_index_from_name (m : NcmModel) (param_name : String) : Bool × ℕ :=
  match List.lookup param_name m.sparams_name_id with
  | some i => (true, i)
  | none => (false, 4294967295)

/-- ncm_model_param_index_from_name (ncm_model.c:1923-1947): with an active
reparametrization first try its renamed-slot table, then fall back to the
original table; resolving a name whose slot the reparametrization has
renamed calls g_error (modelled as none). Without a reparametrization the
original table decides. -/
def ncm_model_param_index_from_name (m : NcmModel) (param_name : String) : Option (Bool × ℕ) :=
  match m.reparam with
  | some reparam =>
      match ncm_reparam_index_from_name reparam param_name with
      | (true, i) => some (true, i)
      | (false, _) =>
          match ncm_model_orig_param_index_from_name m param_name with
          | (true, i) =>
              if (ncm_reparam_peek_param_desc reparam i).isSome then none
              else some (true, i)
          | (false, i) => some (false, i)
  | none => some (ncm_model_orig_param_index_from_name m param_name)

/-- Claim C6: with an active reparametrization the lookup first consults
the reparametrization's own table; on a miss it falls back to the original
table, which succeeds softly when the resolved slot is untouched and fails
loudly (fatal g_error, not a silent result) when the reparametrization has
renamed that slot; without a reparametrization, and on a complete miss, the
result is the soft found/not-found indication of the original table. -/
theorem ncm_model_param_index_from_name_resolution (m : NcmModel) (param_name : String) :
    (∀ r i, m.reparam = some r →
       List.lookup param_name r.sparams_name_id = some i →
       ncm_model_param_index_from_name m param_name = some (true, i)) ∧
    (∀ r i, m.reparam = some r →
       List.lookup param_name r.sparams_name_id = none →
       List.lookup param_name m.sparams_name_id = some i →
       ncm_reparam_peek_param_desc r i = none →
       ncm_model_param_index_from_name m param_name = some (true, i)) ∧
    (∀ r i, m.reparam = some r →
       List.lookup param_name r.sparams_name_id = none →
       List.lookup param_name m.sparams_name_id = some i →
       (ncm_reparam_peek_param_desc r i).isSome →
       ncm_model_param_index_from_name m param_name = none) ∧
    (∀ r, m.reparam = some r →
       List.lookup param_name r.sparams_name_id = none →
       List.lookup param_name m.sparams_name_id = none →
       ncm_model_param_index_from_name m param_name = some (false, 4294967295)) ∧
    (m.reparam = none →
       ncm_model_param_index_from_name m param_name =
         some (ncm_model_orig_param_index_from_name m param_name)) := by
  refine ⟨?_, ?_, ?_, ?_, ?_⟩
  · intro r i hr hl
    simp [ncm_model_param_index_from_name, hr, ncm_reparam_index_from_name, hl]
  · intro r i hr hl ho hd
    simp [ncm_model_param_index_from_name, hr, ncm_reparam_index_from_name, hl,
          ncm_model_orig_param_index_from_name, ho, hd]
  · intro r i hr hl ho hd
    simp [ncm_model_param_index_from_name, hr, ncm_reparam_index_from_name, hl,
          ncm_model_orig_param_index_from_name, ho, hd]
  · intro r hr hl ho
    simp [ncm_model_param_index_from_name, hr, ncm_reparam_index_from_name, hl,
          ncm_model_orig_param_index_from_name, ho]
  · intro hr
    simp [ncm_model_param_index_from_name, hr]

/-- Reparametrization renaming slot 0 of the demo model from a to A. -/
def ncm_reparam_demo_rename : NcmReparam :=
  { rtype := 11
    length := 2
    old2new := fun v => v
    new_params := [0, 0]
    sparams_name_id := [("A", 0)]
    sparams := [some { ncm_sparam_zero with name := "A", symbol := "A" }, none] }

/-- Demo model with the renaming reparametrization attached. -/
def ncm_model_rename_demo : NcmModel :=
  { ncm_model_reparam_demo with palias := false, reparam := some ncm_reparam_demo_rename }

/-- Witness for claim C6: on the renamed demo model, the new name A hits
the reparametrization table, the untouched name b falls back to the
original table, the stale name a of the renamed slot is fatal, a missing
name is a soft not-found, and lookup without a reparametrization uses the
original table. -/
theorem ncm_model_param_index_from_name_resolution_witness :
    ncm_model_param_index_from_name ncm_model_rename_demo "A" = some (true, 0) ∧
    ncm_model_param_index_from_name ncm_model_rename_demo "b" = some (true, 1) ∧
    ncm_model_param_index_from_name ncm_model_rename_demo "a" = none ∧
    ncm_model_param_index_from_name ncm_model_rename_demo "c" = some (false, 4294967295) ∧
    ncm_model_param_index_from_name ncm_model_reparam_demo "b" =
      some (ncm_model_orig_param_index_from_name ncm_model_reparam_demo "b") :=
  ⟨(ncm_model_param_index_from_name_resolution ncm_model_rename_demo "A").1
      ncm_reparam_demo_rename 0 rfl rfl,
   (ncm_model_param_index_from_name_resolution ncm_model_rename_demo "b").2.1
      ncm_reparam_demo_rename 1 rfl rfl rfl rfl,
   (ncm_model_param_index_from_name_resolution ncm_model_rename_demo "a").2.2.1
      ncm_reparam_demo_rename 0 rfl rfl rfl (by decide),
   (ncm_model_param_index_from_name_resolution ncm_model_rename_demo "c").2.2.2.1
      ncm_reparam_demo_rename rfl rfl rfl,
   (ncm_model_param_index_from_name_resolution ncm_model_reparam_demo "b").2.2.2.2 rfl⟩

/-- Unsigned 32-bit subtraction: C guint arithmetic wraps modulo 2^32. -/
def guint_sub (a b : ℕ) : ℕ :=
  (a % 4294967296 + (4294967296 - b % 4294967296)) % 4294967296

/-- Unsigned 32-bit addition. -/
def guint_add (a b : ℕ) : ℕ :=
  (a + b) % 4294967296

/-- ncm_model_class_set_sparam (ncm_model.c:920-952): builds the descriptor
via ncm_sparam_new, asserts the computed property id is positive, rejects a
slot that already holds a descriptor with g_error (modelled as
Except.error), and otherwise installs the descriptor at the absolute index
sparam_id. The GObject property installations target the external GObject
registry and carry no model-class state. -/
def ncm_model_class_set_sparam (model_class : NcmModelClass) (sparam_id : ℕ)
    (symbol name : String) (lower_bound upper_bound scale abstol default_value : ℚ)
    (ppt : NcmParamType) : Except String NcmModelClass :=
  if guint_add (guint_sub sparam_id model_class.parent_sparam_len)
       model_class.nonparam_prop_len = 0 then
    Except.error "assertion failed: prop_id > 0"
  else if (model_class.sparam.getD sparam_id none).isSome then
    Except.error "Scalar Parameter is already set."
  else Except.ok { model_class with
    sparam := model_class.sparam.set sparam_id (some
      { name := name, symbol := symbol, lower_bound := lower_bound,
        upper_bound := upper_bound, scale := scale, abstol := abstol,
        default_value := default_value, ftype := ppt }) }

/-- Claim C7: a successful set_sparam installs the descriptor at the slot,
and calling set_sparam again on the same slot fails with an error on the
second call instead of silently overwriting, leaving the first installed
descriptor in place. -/
theorem ncm_model_class_set_sparam_one_shot (c c' : NcmModelClass) (i : ℕ)
    (sy1 na1 : String) (lb1 ub1 sc1 at1 dv1 : ℚ) (pt1 : NcmParamType)
    (sy2 na2 : String) (lb2 ub2 sc2 at2 dv2 : ℚ) (pt2 : NcmParamType)
    (hlen : i < c.sparam.length)
    (h : ncm_model_class_set_sparam c i sy1 na1 lb1 ub1 sc1 at1 dv1 pt1 = Except.ok c') :
    c'.sparam.getD i none =
      some { name := na1, symbol := sy1, lower_bound := lb1, upper_bound := ub1,
             scale := sc1, abstol := at1, default_value := dv1, ftype := pt1 } ∧
    ∃ e, ncm_model_class_set_sparam c' i sy2 na2 lb2 ub2 sc2 at2 dv2 pt2 = Except.error e := by
  unfold ncm_model_class_set_sparam at h ⊢
  split_ifs at h with h1 h2
  · injection h with h
    subst h
    constructor
    · simp [List.getD, List.getElem?_set_self, hlen]
    · refine ⟨"Scalar Parameter is already set.", ?_⟩
      simp [h1, List.getD, List.getElem?_set_self, hlen]

/-- Fresh one-slot model-class state used to witness claim C7. -/
def ncm_model_class_demo : NcmModelClass :=
  { nonparam_prop_len := 1
    sparam_len := 1
    vparam_len := 0
    parent_sparam_len := 0
    parent_vparam_len := 0
    sparam := [none]
    vparam := []
    has_get_property := false
    has_set_property := false }

/-- The demo class after its slot 0 has been registered once. -/
def ncm_model_class_demo_set : NcmModelClass :=
  { ncm_model_class_demo with
      sparam := [some { name := "p0", symbol := "p_0", lower_bound := -10,
                        upper_bound := 10, scale := 1, abstol := 0,
                        default_value := 2, ftype := NcmParamType.free }] }

/-- Witness for claim C7 at a concrete class: the first registration
installs the descriptor and the second registration of slot 0 errors. -/
theorem ncm_model_class_set_sparam_one_shot_witness :
    ncm_model_class_demo_set.sparam.getD 0 none =
      some { name := "p0", symbol := "p_0", lower_bound := -10, upper_bound := 10,
             scale := 1, abstol := 0, default_value := 2, ftype := NcmParamType.free } ∧
    ∃ e, ncm_model_class_set_sparam ncm_model_class_demo_set 0 "q_0" "q0" 0 1 1 0 0
           NcmParamType.fixed = Except.error e :=
  ncm_model_class_set_sparam_one_shot ncm_model_class_demo ncm_model_class_demo_set 0
    "p_0" "p0" (-10) 10 1 0 2 NcmParamType.free
    "q_0" "q0" 0 1 1 0 0 NcmParamType.fixed
    (by decide) rfl

/-- ncm_model_param_set_ftype (ncm_model.c:1822-1826): plain store into the
fit-type array. -/
def ncm_model_param_set_ftype (m : NcmModel) (n : ℕ) (ptype : NcmParamType) : NcmModel :=
  { m with ptypes := m.ptypes.set n ptype }

/-- ncm_model_param_get_ftype (ncm_model.c:1747-1751): plain read from the
fit-type array. -/
def ncm_model_param_get_ftype (m : NcmModel) (n : ℕ) : NcmParamType :=
  m.ptypes.getD n NcmParamType.fixed

/-- Claim C10: setting the fit type of slot n changes only the n-th entry
of the fit-flag array: reading slot n afterwards yields the new type, every
other slot keeps its previous fit type, and the original and working
parameter vectors are untouched. -/
theorem ncm_model_param_set_ftype_frame (m : NcmModel) (n : ℕ) (t : NcmParamType)
    (h : n < m.ptypes.length) :
    ncm_model_param_get_ftype (ncm_model_param_set_ftype m n t) n = t ∧
    (∀ k, k ≠ n →
       ncm_model_param_get_ftype (ncm_model_param_set_ftype m n t) k =
         ncm_model_param_get_ftype m k) ∧
    (ncm_model_param_set_ftype m n t).params = m.params ∧
    ncm_model_working_vector (ncm_model_param_set_ftype m n t) =
      ncm_model_working_vector m := by
  refine ⟨?_, ?_, rfl, rfl⟩
  · simp [ncm_model_param_get_ftype, ncm_model_param_set_ftype, List.getD,
          List.getElem?_set_self h]
  · intro k hk
    simp [ncm_model_param_get_ftype, ncm_model_param_set_ftype, List.getD,
          List.getElem?_set_ne (fun he => hk he.symm)]

/-- Witness for claim C10 at a concrete model: setting slot 0 free leaves
slot 1 fixed and does not move the parameter vectors. -/
theorem ncm_model_param_set_ftype_frame_witness :
    ncm_model_param_get_ftype
      (ncm_model_param_set_ftype ncm_model_reparam_demo 0 NcmParamType.free) 0 =
        NcmParamType.free ∧
    ncm_model_param_get_ftype
      (ncm_model_param_set_ftype ncm_model_reparam_demo 0 NcmParamType.free) 1 =
        ncm_model_param_get_ftype ncm_model_reparam_demo 1 ∧
    (ncm_model_param_set_ftype ncm_model_reparam_demo 0 NcmParamType.free).params =
      ncm_model_reparam_demo.params :=
  ⟨(ncm_model_param_set_ftype_frame ncm_model_reparam_demo 0 NcmParamType.free (by decide)).1,
   (ncm_model_param_set_ftype_frame ncm_model_reparam_demo 0 NcmParamType.free
      (by decide)).2.1 1 (by decide),
   (ncm_model_param_set_ftype_frame ncm_model_reparam_demo 0 NcmParamType.free
      (by decide)).2.2.1⟩

/-- ncm_model_class_add_params (ncm_model.c:833-883): record the parent
slot counts before growing, grow both slot counts by the deltas, install
the nonparametric property count, and rebuild each slot array at the new
size, copying forward the parent-declared entries (a NULL array is modelled
by the empty list and is freshly allocated zero-initialized). -/
def ncm_model_class_add_params (model_class : NcmModelClass)
    (sparam_len vparam_len nonparam_prop_len : ℕ) : NcmModelClass :=
  { model_class with
    parent_sparam_len := model_class.sparam_len
    parent_vparam_len := model_class.vparam_len
    sparam_len := model_class.sparam_len + sparam_len
    vparam_len := model_class.vparam_len + vparam_len
    nonparam_prop_len := nonparam_prop_len
    sparam :=
      if model_class.sparam_len + sparam_len > 0 then
        if model_class.sparam.isEmpty then
          List.replicate (model_class.sparam_len + sparam_len) none
        else
          (List.range (model_class.sparam_len + sparam_len)).map fun i =>
            if i < model_class.sparam_len then model_class.sparam.getD i none else none
      else model_class.sparam
    vparam :=
      if model_class.vparam_len + vparam_len > 0 then
        if model_class.vparam.isEmpty then
          List.replicate (model_class.vparam_len + vparam_len) none
        else
          (List.range (model_class.vparam_len + vparam_len)).map fun i =>
            if i < model_class.vparam_len then model_class.vparam.getD i none else none
      else model_class.vparam }

/-- Fresh model-class state as produced by ncm_model_class_init
(ncm_model.c:599-606): no slots, no parent slots, NULL slot arrays. -/
def ncm_model_class_init_state : NcmModelClass :=
  { nonparam_prop_len := 0
    sparam_len := 0
    vparam_len := 0
    parent_sparam_len := 0
    parent_vparam_len := 0
    sparam := []
    vparam := []
    has_get_property := false
    has_set_property := false }

/-- The vector-parameter placement loop of _ncm_model_constructed
(ncm_model.c:458-463): starting from the scalar count, lay the vector
parameters out contiguously, yielding the vparam_pos table and total_len. -/
def _ncm_model_vparam_layout (model_class : NcmModelClass) (vlens : List ℕ) : List ℕ × ℕ :=
  (List.range model_class.vparam_len).foldl
    (fun acc i => (acc.1 ++ [acc.2], acc.2 + vlens.getD i 0))
    ([], model_class.sparam_len)

/-- Embedding of _ncm_model_set_sparams (ncm_model.c:398-436): the instance descriptor
table holds a copy of each class scalar descriptor followed by the expanded
vector-parameter components placed contiguously at their positions; per the
spec each vector parameter expands into length independent copies of its
template descriptor (the per-component naming lives in the missing
ncm_vparam.c). -/
def _ncm_model_set_sparams (model_class : NcmModelClass) (vlens : List ℕ) : List NcmSParam :=
  ((List.range model_class.sparam_len).map fun i =>
      (model_class.sparam.getD i none).getD ncm_sparam_zero)
  ++ ((List.range model_class.vparam_len).map fun i =>
        List.replicate (vlens.getD i 0)
          ((model_class.vparam.getD i none).getD
            { default_sparam := ncm_sparam_zero, len := 0 }).default_sparam).flatten

/-- Name table built by the g_hash_table inserts of _ncm_model_set_sparams:
later inserts replace earlier bindings of the same name. -/
def ncm_model_name_table (sps : List NcmSParam) : List (String × ℕ) :=
  (List.range sps.length).foldl
    (fun t n => ((sps.getD n ncm_sparam_zero).name, n) ::
        t.filter fun kv => kv.1 ≠ (sps.getD n ncm_sparam_zero).name)
    []

/-- Embedding of _ncm_model_constructed (ncm_model.c:448-471): compute total_len and the
vector-parameter positions, allocate the original vector, alias the working
vector to it, size the fit-type array, build the instance descriptor table
and fill every slot with its default value. -/
def _ncm_model_constructed (model_class : NcmModelClass) (vlens : List ℕ)
    (gtype : ℕ) : NcmModel :=
  { gtype := gtype
    total_len := (_ncm_model_vparam_layout model_class vlens).2
    params := (_ncm_model_set_sparams model_class vlens).map fun sp => sp.default_value
    palias := true
    reparam := none
    ptypes := List.replicate (_ncm_model_vparam_layout model_class vlens).2 NcmParamType.fixed
    sparams := _ncm_model_set_sparams model_class vlens
    sparams_name_id := ncm_model_name_table (_ncm_model_set_sparams model_class vlens)
    vparam_len := vlens
    vparam_pos := (_ncm_model_vparam_layout model_class vlens).1 }

/-- The accumulator of the placement loop ends at the starting offset plus
the sum of the visited lengths. -/
theorem ncm_model_layout_foldl_snd (l : List ℕ) (vlens : List ℕ) (ps : List ℕ) (t : ℕ) :
    (l.foldl (fun acc i => (acc.1 ++ [acc.2], acc.2 + vlens.getD i 0)) (ps, t)).2
      = t + (l.map fun i => vlens.getD i 0).sum := by
  induction l generalizing ps t with
  | nil => simp
  | cons a tl ih =>
    simp only [List.foldl_cons]
    rw [ih]
    simp only [List.map_cons, List.sum_cons]
    omega

/-- Reading a list at every index below its length reproduces the list. -/
theorem ncm_model_range_map_getD (l : List ℕ) :
    ((List.range l.length).map fun i => l.getD i 0) = l := by
  induction l with
  | nil => rfl
  | cons a tl ih =>
    rw [List.length_cons, List.range_succ_eq_map, List.map_cons, List.map_map]
    simp only [List.getD_cons_zero, Function.comp_def, List.getD_cons_succ]
    rw [ih]

/-- Folding add_params over a call list accumulates the scalar deltas. -/
theorem ncm_model_fold_add_params_sparam_len (calls : List (ℕ × ℕ × ℕ)) (c : NcmModelClass) :
    (calls.foldl (fun cc t => ncm_model_class_add_params cc t.1 t.2.1 t.2.2) c).sparam_len
      = c.sparam_len + (calls.map fun t => t.1).sum := by
  induction calls generalizing c with
  | nil => simp
  | cons a tl ih =>
    simp only [List.foldl_cons]
    rw [ih]
    simp only [ncm_model_class_add_params, List.map_cons, List.sum_cons]
    omega

/-- Claim C3: ncm_model_class_add_params records the parent slot counts
before adding the deltas and copies forward every previously declared
descriptor; consequently, for any chain of add_params calls starting from a
fresh class, a freshly constructed instance has total_len equal to the sum
of all declared scalar counts plus the sum of the vector-parameter
lengths. -/
theorem ncm_model_class_add_params_layout :
    (∀ (c : NcmModelClass) (sl vl np : ℕ),
       (ncm_model_class_add_params c sl vl np).parent_sparam_len = c.sparam_len ∧
       (ncm_model_class_add_params c sl vl np).parent_vparam_len = c.vparam_len ∧
       (ncm_model_class_add_params c sl vl np).sparam_len = c.sparam_len + sl ∧
       (ncm_model_class_add_params c sl vl np).vparam_len = c.vparam_len + vl ∧
       (∀ i, i < c.sparam_len →
          (ncm_model_class_add_params c sl vl np).sparam.getD i none = c.sparam.getD i none) ∧
       (∀ i, i < c.vparam_len →
          (ncm_model_class_add_params c sl vl np).vparam.getD i none = c.vparam.getD i none)) ∧
    (∀ (calls : List (ℕ × ℕ × ℕ)) (vlens : List ℕ) (g : ℕ),
       vlens.length = (calls.foldl (fun cc t => ncm_model_class_add_params cc t.1 t.2.1 t.2.2)
                         ncm_model_class_init_state).vparam_len →
       (_ncm_model_constructed
           (calls.foldl (fun cc t => ncm_model_class_add_params cc t.1 t.2.1 t.2.2)
             ncm_model_class_init_state) vlens g).total_len
         = (calls.map fun t => t.1).sum + vlens.sum) := by
  constructor
  · intro c sl vl np
    refine ⟨rfl, rfl, rfl, rfl, ?_, ?_⟩
    · intro i hi
      simp only [ncm_model_class_add_params]
      split_ifs with hpos hemp
      · rw [List.isEmpty_iff.mp hemp]
        rcases Nat.lt_or_ge i (c.sparam_len + sl) with hlt | hge
        · simp [List.getD, List.getElem?_replicate, hlt]
        · simp [List.getD, List.getElem?_replicate, Nat.not_lt.mpr hge]
      · have hlt : i < c.sparam_len + sl := Nat.lt_of_lt_of_le hi (Nat.le_add_right _ _)
        simp [List.getD, List.getElem?_map, List.getElem?_range, hlt, hi]
      · rfl
    · intro i hi
      simp only [ncm_model_class_add_params]
      split_ifs with hpos hemp
      · rw [List.isEmpty_iff.mp hemp]
        rcases Nat.lt_or_ge i (c.vparam_len + vl) with hlt | hge
        · simp [List.getD, List.getElem?_replicate, hlt]
        · simp [List.getD, List.getElem?_replicate, Nat.not_lt.mpr hge]
      · have hlt : i < c.vparam_len + vl := Nat.lt_of_lt_of_le hi (Nat.le_add_right _ _)
        simp [List.getD, List.getElem?_map, List.getElem?_range, hlt, hi]
      · rfl
  · intro calls vlens g hlen
    show (_ncm_model_vparam_layout _ vlens).2 = _
    unfold _ncm_model_vparam_layout
    rw [ncm_model_layout_foldl_snd, ← hlen, ncm_model_range_map_getD,
        ncm_model_fold_add_params_sparam_len]
    show 0 + _ + _ = _
    omega

/-- Witness for claim C3: a base level declaring two scalars and a child
level declaring three scalars and one vector parameter of length four give
a child instance of total length nine; add_params on the demo class records
its previous scalar count. -/
theorem ncm_model_class_add_params_layout_witness :
    (ncm_model_class_add_params ncm_model_class_demo 2 1 1).parent_sparam_len =
      ncm_model_class_demo.sparam_len ∧
    (_ncm_model_constructed
        ([((2 : ℕ), (0 : ℕ), (1 : ℕ)), (3, 1, 1)].foldl
          (fun cc t => ncm_model_class_add_params cc t.1 t.2.1 t.2.2)
          ncm_model_class_init_state) [4] 0).total_len = 9 := by
  constructor
  · exact (ncm_model_class_add_params_layout.1 ncm_model_class_demo 2 1 1).1
  · have h := ncm_model_class_add_params_layout.2 [(2, 0, 1), (3, 1, 1)] [4] 0 (by decide)
    rw [h]
    decide

/-- Destination of a generic property request after the region walk of
_ncm_model_class_get_property / _ncm_model_class_set_property, carrying the
region-local id the code hands to the region accessor. -/
inductive NcmPropDispatch where
  | nonparam (prop_id : ℕ)
  | sparam_value (sparam_id : ℕ)
  | vparam_value (vparam_id : ℕ)
  | vparam_length (vparam_len_id : ℕ)
  | sparam_fit (sparam_fit_id : ℕ)
  | vparam_fit (vparam_fit_id : ℕ)
  | not_reached
deriving DecidableEq, Repr

/-- Embedding of _ncm_model_class_get_property (ncm_model.c:663-718): the five region
ids are derived from prop_id by guint arithmetic, and the request goes to
the level's own property handler (when installed) or to the first of the
five regions whose membership test succeeds; a request in no region hits
g_assert_not_reached. -/
def _ncm_model_class_get_property (model_class : NcmModelClass) (prop_id : ℕ) : NcmPropDispatch :=
  let sparam_id := guint_add (guint_sub prop_id model_class.nonparam_prop_len)
                     model_class.parent_sparam_len
  let vparam_id := guint_add (guint_sub sparam_id model_class.sparam_len)
                     model_class.parent_vparam_len
  let vparam_len_id := guint_add (guint_sub vparam_id model_class.vparam_len)
                         model_class.parent_vparam_len
  let sparam_fit_id := guint_add (guint_sub vparam_len_id model_class.vparam_len)
                         model_class.parent_sparam_len
  let vparam_fit_id := guint_add (guint_sub sparam_fit_id model_class.sparam_len)
                         model_class.parent_vparam_len
  if prop_id < model_class.nonparam_prop_len ∧ model_class.has_get_property = true then
    NcmPropDispatch.nonparam prop_id
  else if sparam_id < model_class.sparam_len then NcmPropDispatch.sparam_value sparam_id
  else if vparam_id < model_class.vparam_len then NcmPropDispatch.vparam_value vparam_id
  else if vparam_len_id < model_class.vparam_len then NcmPropDispatch.vparam_length vparam_len_id
  else if sparam_fit_id < model_class.sparam_len then NcmPropDispatch.sparam_fit sparam_fit_id
  else if vparam_fit_id < model_class.vparam_len then NcmPropDispatch.vparam_fit vparam_fit_id
  else NcmPropDispatch.not_reached

/-- Embedding of _ncm_model_class_set_property (ncm_model.c:720-821): identical region
arithmetic and walking order as the get side, gated on the set handler. -/
def _ncm_model_class_set_property (model_class : NcmModelClass) (prop_id : ℕ) : NcmPropDispatch :=
  let sparam_id := guint_add (guint_sub prop_id model_class.nonparam_prop_len)
                     model_class.parent_sparam_len
  let vparam_id := guint_add (guint_sub sparam_id model_class.sparam_len)
                     model_class.parent_vparam_len
  let vparam_len_id := guint_add (guint_sub vparam_id model_class.vparam_len)
                         model_class.parent_vparam_len
  let sparam_fit_id := guint_add (guint_sub vparam_len_id model_class.vparam_len)
                         model_class.parent_sparam_len
  let vparam_fit_id := guint_add (guint_sub sparam_fit_id model_class.sparam_len)
                         model_class.parent_vparam_len
  if prop_id < model_class.nonparam_prop_len ∧ model_class.has_set_property = true then
    NcmPropDispatch.nonparam prop_id
  else if sparam_id < model_class.sparam_len then NcmPropDispatch.sparam_value sparam_id
  else if vparam_id < model_class.vparam_len then NcmPropDispatch.vparam_value vparam_id
  else if vparam_len_id < model_class.vparam_len then NcmPropDispatch.vparam_length vparam_len_id
  else if sparam_fit_id < model_class.sparam_len then NcmPropDispatch.sparam_fit sparam_fit_id
  else if vparam_fit_id < model_class.vparam_len then NcmPropDispatch.vparam_fit vparam_fit_id
  else NcmPropDispatch.not_reached

/-- Claim-side resolution, following the words of the spec (§4.1): an id
below nonparam goes to the level's own handler; otherwise subtract
nonparam and walk the five regions in the fixed order own-scalar-values,
own-vector-values, own-vector-lengths, own-scalar-fit-flags,
own-vector-fit-flags, each region sized by the level's own slot counts;
the region-local id is the parent count plus the offset in the region. -/
def ncm_model_prop_resolve_claim (nonparam own_s own_v parent_s parent_v p : ℕ) :
    NcmPropDispatch :=
  if p < nonparam then NcmPropDispatch.nonparam p
  else if p - nonparam < own_s then
    NcmPropDispatch.sparam_value (parent_s + (p - nonparam))
  else if p - nonparam - own_s < own_v then
    NcmPropDispatch.vparam_value (parent_v + (p - nonparam - own_s))
  else if p - nonparam - own_s - own_v < own_v then
    NcmPropDispatch.vparam_length (parent_v + (p - nonparam - own_s - own_v))
  else if p - nonparam - own_s - own_v - own_v < own_s then
    NcmPropDispatch.sparam_fit (parent_s + (p - nonparam - own_s - own_v - own_v))
  else if p - nonparam - own_s - own_v - own_v - own_s < own_v then
    NcmPropDispatch.vparam_fit (parent_v + (p - nonparam - own_s - own_v - own_v - own_s))
  else NcmPropDispatch.not_reached

/-- Claim C2: for a class level with its handlers installed, consistent
parent counts and no guint overflow in range, both generic property
dispatchers resolve every property id exactly as the spec's five-region
walk over the level's own slot counts. -/
theorem ncm_model_class_property_dispatch (c : NcmModelClass) (p : ℕ)
    (hg : c.has_get_property = true) (hs : c.has_set_property = true)
    (h1 : c.parent_sparam_len ≤ c.sparam_len)
    (h2 : c.parent_vparam_len ≤ c.vparam_len)
    (hb : p + c.sparam_len + c.vparam_len + c.nonparam_prop_len < 4294967296) :
    _ncm_model_class_get_property c p =
      ncm_model_prop_resolve_claim c.nonparam_prop_len
        (c.sparam_len - c.parent_sparam_len) (c.vparam_len - c.parent_vparam_len)
        c.parent_sparam_len c.parent_vparam_len p ∧
    _ncm_model_class_set_property c p =
      ncm_model_prop_resolve_claim c.nonparam_prop_len
        (c.sparam_len - c.parent_sparam_len) (c.vparam_len - c.parent_vparam_len)
        c.parent_sparam_len c.parent_vparam_len p := by
  obtain ⟨N, S, V, Ps, Pv, sp, vp, hasg, hass⟩ := c
  dsimp only at hg hs h1 h2 hb ⊢
  subst hg
  subst hs
  have hset : _ncm_model_class_set_property ⟨N, S, V, Ps, Pv, sp, vp, true, true⟩ p
      = _ncm_model_class_get_property ⟨N, S, V, Ps, Pv, sp, vp, true, true⟩ p := rfl
  refine ⟨?main, hset.trans ?main⟩
  simp only [_ncm_model_class_get_property, ncm_model_prop_resolve_claim]
  by_cases hp : p < N
  · rw [if_pos ⟨hp, trivial⟩, if_pos hp]
  · rw [if_neg (fun h => hp h.1), if_neg hp]
    have e1 : guint_add (guint_sub p N) Ps = p - N + Ps := by
      unfold guint_add guint_sub
      omega
    rw [e1]
    by_cases c2 : p - N + Ps < S
    · rw [if_pos c2, if_pos (show p - N < S - Ps by omega)]
      simp only [NcmPropDispatch.sparam_value.injEq]
      omega
    · rw [if_neg c2, if_neg (show ¬ (p - N < S - Ps) by omega)]
      have e2 : guint_add (guint_sub (p - N + Ps) S) Pv = p - N + Ps - S + Pv := by
        unfold guint_add guint_sub
        omega
      rw [e2]
      by_cases c3 : p - N + Ps - S + Pv < V
      · rw [if_pos c3, if_pos (show p - N - (S - Ps) < V - Pv by omega)]
        simp only [NcmPropDispatch.vparam_value.injEq]
        omega
      · rw [if_neg c3, if_neg (show ¬ (p - N - (S - Ps) < V - Pv) by omega)]
        have e3 : guint_add (guint_sub (p - N + Ps - S + Pv) V) Pv
            = p - N + Ps - S + Pv - V + Pv := by
          unfold guint_add guint_sub
          omega
        rw [e3]
        by_cases c4 : p - N + Ps - S + Pv - V + Pv < V
        · rw [if_pos c4, if_pos (show p - N - (S - Ps) - (V - Pv) < V - Pv by omega)]
          simp only [NcmPropDispatch.vparam_length.injEq]
          omega
        · rw [if_neg c4, if_neg (show ¬ (p - N - (S - Ps) - (V - Pv) < V - Pv) by omega)]
          have e4 : guint_add (guint_sub (p - N + Ps - S + Pv - V + Pv) V) Ps
              = p - N + Ps - S + Pv - V + Pv - V + Ps := by
            unfold guint_add guint_sub
            omega
          rw [e4]
          by_cases c5 : p - N + Ps - S + Pv - V + Pv - V + Ps < S
          · rw [if_pos c5,
              if_pos (show p - N - (S - Ps) - (V - Pv) - (V - Pv) < S - Ps by omega)]
            simp only [NcmPropDispatch.sparam_fit.injEq]
            omega
          · rw [if_neg c5,
              if_neg (show ¬ (p - N - (S - Ps) - (V - Pv) - (V - Pv) < S - Ps) by omega)]
            have e5 : guint_add (guint_sub (p - N + Ps - S + Pv - V + Pv - V + Ps) S) Pv
                = p - N + Ps - S + Pv - V + Pv - V + Ps - S + Pv := by
              unfold guint_add guint_sub
              omega
            rw [e5]
            by_cases c6 : p - N + Ps - S + Pv - V + Pv - V + Ps - S + Pv < V
            · rw [if_pos c6,
                if_pos (show p - N - (S - Ps) - (V - Pv) - (V - Pv) - (S - Ps) < V - Pv
                  by omega)]
              simp only [NcmPropDispatch.vparam_fit.injEq]
              omega
            · rw [if_neg c6,
                if_neg (show ¬ (p - N - (S - Ps) - (V - Pv) - (V - Pv) - (S - Ps) < V - Pv)
                  by omega)]

/-- Two-level class with one nonparametric property, one parent scalar plus
two own scalars, and one parent vector plus one own vector parameter. -/
def ncm_model_class_dispatch_demo : NcmModelClass :=
  { nonparam_prop_len := 1
    sparam_len := 3
    vparam_len := 2
    parent_sparam_len := 1
    parent_vparam_len := 1
    sparam := [none, none, none]
    vparam := [none, none]
    has_get_property := true
    has_set_property := true }

/-- Witness for claim C2: on the demo class both dispatchers match the
claim-side resolution at property id 4. -/
theorem ncm_model_class_property_dispatch_witness :
    _ncm_model_class_get_property ncm_model_class_dispatch_demo 4 =
      ncm_model_prop_resolve_claim 1 2 1 1 1 4 ∧
    _ncm_model_class_set_property ncm_model_class_dispatch_demo 4 =
      ncm_model_prop_resolve_claim 1 2 1 1 1 4 :=
  ⟨(ncm_model_class_property_dispatch ncm_model_class_dispatch_demo 4 rfl rfl
      (by decide) (by decide) (by decide)).1,
   (ncm_model_class_property_dispatch ncm_model_class_dispatch_demo 4 rfl rfl
      (by decide) (by decide) (by decide)).2⟩

/-- Dense matrix (NcmMatrix, ncm_matrix.h): explicit dimensions plus the
stored rows. -/
structure NcmMatrix where
  nrows : ℕ
  ncols : ℕ
  data : List (List ℚ)
deriving DecidableEq, Repr

/-- The serialized blobs ncm_matrix_set_from_variant can receive: an
array-of-array-of-doubles variant, or a variant of any other type. -/
inductive NcmVariant where
  | aad (rows : List (List ℚ))
  | other (type_string : String)
deriving DecidableEq, Repr

/-- Outcome of ncm_matrix_set_from_variant: the updated matrix, or the
program abort raised by g_error (the function has no recoverable error
path; it returns void in C). -/
inductive NcmMatrixSetResult where
  | ok (cm : NcmMatrix)
  | fatal
deriving DecidableEq, Repr

/-- ncm_matrix_set_from_variant (ncm_matrix.c:397-432): a non-aad variant
is a g_error; a still-unallocated target (both dimensions zero) is resized
to the decoded shape and filled; an allocated target whose dimensions
disagree with the decoded shape hits g_error before any element is written;
otherwise the elements are copied in. -/
def ncm_matrix_set_from_variant (cm : NcmMatrix) (var : NcmVariant) : NcmMatrixSetResult :=
  match var with
  | NcmVariant.other _ => NcmMatrixSetResult.fatal
  | NcmVariant.aad rows_ =>
      if cm.nrows = 0 ∧ cm.ncols = 0 then
        NcmMatrixSetResult.ok
          { nrows := rows_.length
            ncols := (rows_.getD 0 []).length
            data := (List.range rows_.length).map fun i =>
              (List.range (rows_.getD 0 []).length).map fun j => (rows_.getD i []).getD j 0 }
      else if rows_.length ≠ cm.nrows ∨ (rows_.getD 0 []).length ≠ cm.ncols then
        NcmMatrixSetResult.fatal
      else
        NcmMatrixSetResult.ok
          { cm with data := (List.range rows_.length).map fun i =>
              (List.range (rows_.getD 0 []).length).map fun j => (rows_.getD i []).getD j 0 }

/-- Already-allocated 1x1 target matrix for the C9 counterexample. -/
def ncm_matrix_demo : NcmMatrix :=
  { nrows := 1, ncols := 1, data := [[5]] }

/-- Counterexample to claim C9 as stated: decoding a 2x2 blob into the
allocated 1x1 target does not report a recoverable conversion failure to
the caller; it hits g_error, which aborts the program (the embedding of the
function has no recoverable-error outcome at all). -/
theorem ncm_matrix_set_from_variant_mismatch_aborts :
    ncm_matrix_set_from_variant ncm_matrix_demo (NcmVariant.aad [[1, 2], [3, 4]]) =
      NcmMatrixSetResult.fatal := by
  decide

/-- Claim C9 amended: decoding a serialized matrix whose shape disagrees
with an already-allocated target (some dimension nonzero) is a fatal error:
g_error aborts the program before any element of the target is written. -/
theorem ncm_matrix_set_from_variant_mismatch_fatal (cm : NcmMatrix) (rows_ : List (List ℚ))
    (halloc : ¬ (cm.nrows = 0 ∧ cm.ncols = 0))
    (hmis : rows_.length ≠ cm.nrows ∨ (rows_.getD 0 []).length ≠ cm.ncols) :
    ncm_matrix_set_from_variant cm (NcmVariant.aad rows_) = NcmMatrixSetResult.fatal := by
  simp only [ncm_matrix_set_from_variant]
  rw [if_neg halloc, if_pos hmis]

/-- Witness for the amended claim C9 at the concrete mismatched pair. -/
theorem ncm_matrix_set_from_variant_mismatch_fatal_witness :
    ncm_matrix_set_from_variant ncm_matrix_demo (NcmVariant.aad [[1, 2], [3, 4]]) =
      NcmMatrixSetResult.fatal :=
  ncm_matrix_set_from_variant_mismatch_fatal ncm_matrix_demo [[1, 2], [3, 4]]
    (by decide) (by decide)
